import Mathlib

/-!
Shallow embedding of the utility layer of the fairport/pstsdk repository,
file src/fairport/util/util.h: the random-access byte-range `file` class
(constructor, read, write), the FILETIME/time_t conversion helpers, the
VT_DATE stubs, and the single-bit test `test_bit`.

Machine integers are modelled as Nat/Int with explicit reduction mod 2^64
where the C code uses unsigned 64-bit (ulonglong) arithmetic. A C stream
(FILE*) is modelled as its byte contents (a length plus a byte-at-offset
function, so that files larger than 4 GiB stay representable), together
with the current stream position. Fallible operations return
`Except pst_error`, mirroring the thrown exception types of
fairport/util/errors.h.
-/

namespace fairport

/-- Error values thrown by the code under consideration: std::runtime_error
(fopen failure), std::out_of_range (seek/short transfer), and
fairport::not_implemented (errors.h), each carrying its message string. -/
inductive pst_error where
  | runtime_error (msg : String)
  | out_of_range (msg : String)
  | not_implemented (msg : String)
deriving DecidableEq, Repr

/-- Model of an open C stream (FILE*): the byte contents of the underlying
disk file, given as a size and a byte-at-offset function, plus the current
stream position maintained by fseek/fread/fwrite. The public constructor
(util.h:119) always opens with mode "rb", so every stream of this program
is read-only; the contents never change. -/
structure file where
  fsize : Nat
  byteAt : Nat → Nat
  pos : Nat

/-- Embeds fairport::file::file(filename) (util.h:119-133): fopen with the
hard-coded mode "rb" (read-only, binary). A successful open yields a stream
over the existing file contents, positioned at 0. (A failed fopen throws
runtime_error before any file object exists; the model takes the opened
contents directly.) -/
def file.fopen (fsize : Nat) (byteAt : Nat → Nat) : file :=
  ⟨fsize, byteAt, 0⟩

/-- Semantics of C fread(ptr, 1, count, stream) on a regular file opened for
reading: exactly min(count, fsize - pos) bytes are transferred, starting at
the current position. Returns the transferred bytes (the prefix stored into
the caller buffer). -/
def file.fread_bytes (f : file) (count : Nat) : List Nat :=
  (List.range (min count (f.fsize - f.pos))).map (fun i => f.byteAt (f.pos + i))

/-- Embeds fairport::file::read(buffer, offset) (util.h:155-172), in the
branch whose seek takes a true 64-bit offset (_fseeki64; identically fseek
on hosts whose long is 64 bits wide). Seeking a regular open-for-reading
stream to any non-negative offset succeeds, even past EOF, so the fseek
branch never throws here; fread then transfers min(buffer.size, fsize -
offset) bytes, and a transfer shorter than buffer.size() throws
out_of_range("fread failed"). On success the byte count (== buffer.size())
is returned. The result pairs the returned value (or error) with the bytes
now in the buffer, alongside the stream state after the call. -/
def file.read (f : file) (buffer_size : Nat) (offset : Nat) :
    Except pst_error (Nat × List Nat) × file :=
  let f1 : file := { f with pos := offset }
  let data := f1.fread_bytes buffer_size
  let f2 : file := { f1 with pos := f1.pos + data.length }
  if data.length ≠ buffer_size then (.error (.out_of_range "fread failed"), f2)
  else (.ok (data.length, data), f2)

/-- Two's-complement reinterpretation of the low `bits` bits of a natural
number, as used when a C unsigned value is converted to a signed integer
type of width `bits`. -/
def toSigned (bits : Nat) (n : Nat) : Int :=
  let m := n % 2 ^ bits
  if m < 2 ^ (bits - 1) then (m : Int) else (m : Int) - 2 ^ bits

/-- Embeds fairport::file::read(buffer, offset) (util.h:155-172) in the
non-MSVC branch (util.h:160), where the seek is plain C fseek whose offset
parameter is a signed long of the host's width `long_bits`: the 64-bit
offset argument is narrowed to that type first. A negative narrowed offset
makes fseek fail, throwing out_of_range("fseek failed"); otherwise the read
proceeds at the narrowed position. -/
def file.read_long (f : file) (long_bits : Nat) (buffer_size : Nat) (offset : Nat) :
    Except pst_error (Nat × List Nat) × file :=
  let off := toSigned long_bits offset
  if off < 0 then (.error (.out_of_range "fseek failed"), f)
  else f.read buffer_size off.toNat

/-- Embeds fairport::file::write(buffer, offset) (util.h:174-191) on a
stream produced by the public constructor. The constructor opens with mode
"rb", so the stream is never writable: fseek succeeds, C fwrite on a
read-only stream transfers 0 bytes, and write compares that count with
buffer.size(), throwing out_of_range("fwrite failed") whenever they differ
(i.e. for every non-empty buffer). -/
def file.write (f : file) (buffer : List Nat) (offset : Nat) :
    Except pst_error Nat × file :=
  let f1 : file := { f with pos := offset }
  let written : Nat := 0
  if written ≠ buffer.length then (.error (.out_of_range "fwrite failed"), f1)
  else (.ok written, f1)

/-- Number of 100ns FILETIME ticks from Jan 1st 1601 to the Unix epoch,
the constant jan1970 = 116444736000000000ULL of util.h:195/202. -/
def jan1970 : Nat := 116444736000000000

/-- Embeds fairport::filetime_to_time_t (util.h:193-198):
(filetime - jan1970) / 10000000 computed in unsigned 64-bit (ulonglong)
arithmetic — the subtraction wraps mod 2^64 — with the quotient then
converted to time_t (signed 64-bit, two's complement). -/
def filetime_to_time_t (filetime : Nat) : Int :=
  toSigned 64 (((filetime % 2 ^ 64 + 2 ^ 64) - jan1970) % 2 ^ 64 / 10000000)

/-- Embeds fairport::time_t_to_filetime (util.h:200-205):
(time * 10000000) + jan1970, where the multiplication happens in time_t
(signed 64-bit, wrapping two's complement) and the addition in ulonglong;
the composite is reduction of the integer value t * 10^7 + jan1970
mod 2^64. -/
def time_t_to_filetime (time : Int) : Nat :=
  ((time * 10000000 + (jan1970 : Int)) % (2 ^ 64 : Int)).toNat

/-- Embeds fairport::vt_date_to_time_t (util.h:207-210): declared to
convert an OLE VT_DATE (a C double) to time_t, but the body unconditionally
throws not_implemented("vt_date_to_time_t"). -/
def vt_date_to_time_t (_vt_time : Float) : Except pst_error Int :=
  .error (.not_implemented "vt_date_to_time_t")

/-- Embeds fairport::time_t_to_vt_date (util.h:212-215): declared to
convert a time_t to an OLE VT_DATE (a C double), but the body
unconditionally throws not_implemented — with the message string
"vt_date_to_time_t" copied verbatim from the sibling function. -/
def time_t_to_vt_date (_time : Int) : Except pst_error Float :=
  .error (.not_implemented "vt_date_to_time_t")

/-- Embeds fairport::test_bit (util.h:217-220):
(*(pbytes + (bit >> 3)) & (0x80 >> (bit & 7))) != 0, with the byte buffer
pbytes modelled as a list of bytes (reading past the end of the buffer is
out of the model; theorems restrict bit/8 to the buffer). -/
def test_bit (pbytes : List Nat) (bit : Nat) : Bool :=
  (pbytes.getD (bit >>> 3) 0) &&& (0x80 >>> (bit &&& 7)) != 0

end fairport

namespace fairport

/-! Helper lemmas shared by several of the theorems below. -/

/-- Helper: converting an unsigned value below 2^63 to a signed 64-bit
integer is the identity. -/
theorem toSigned64_small (n : Nat) (hn : n < 2 ^ 63) : toSigned 64 n = (n : Int) := by
  unfold toSigned
  dsimp only
  rw [Nat.mod_eq_of_lt (by omega), if_pos (by omega)]

/-- Helper: masking with a single power of two is nonzero exactly on the
corresponding bit. -/
theorem and_two_pow_ne_zero (x k : Nat) : (x &&& 2 ^ k != 0) = x.testBit k := by
  rw [Nat.and_two_pow]
  cases h : x.testBit k
  · simp [h]
  · simp [h, bne_iff_ne]

/-- C1 counterexample: the claim quantifies over every buffer, but for the
empty buffer at offset fsize + 1 the requested range exceeds the file
extent (offset + buffer.size() = fsize + 1) and yet file::read succeeds
returning 0, because fseek past EOF succeeds on a regular file and fread
transfers 0 = buffer.size() bytes, so the short-transfer check does not
fire. -/
theorem read_empty_buffer_past_eof_succeeds :
    2 + 0 = (file.fopen 1 (fun _ => 0)).fsize + 1 ∧
    ((file.fopen 1 (fun _ => 0)).read 0 2).1 = .ok (0, []) :=
  ⟨rfl, rfl⟩

/-- C1 (amended): with the open file modelled as a fixed byte sequence of
length fsize, a read with offset + buffer.size() = fsize succeeds (returning
the bytes at offsets offset..offset+size), and a read of a NON-EMPTY buffer
with offset + buffer.size() exceeding fsize fails with out_of_range, the
only error this code path raises, returned directly to the caller. (The
degenerate empty buffer succeeds at any offset; see the counterexample.) -/
theorem read_boundary_checked (f : file) (buffer_size offset : Nat) :
    (offset + buffer_size = f.fsize →
      (f.read buffer_size offset).1 =
        .ok (buffer_size, (List.range buffer_size).map (fun i => f.byteAt (offset + i)))) ∧
    (1 ≤ buffer_size → f.fsize < offset + buffer_size →
      (f.read buffer_size offset).1 = .error (.out_of_range "fread failed")) := by
  constructor
  · intro h
    unfold file.read file.fread_bytes
    have hm : min buffer_size (f.fsize - offset) = buffer_size := by omega
    dsimp only
    rw [hm]
    simp
  · intro h1 h2
    unfold file.read file.fread_bytes
    have hm : min buffer_size (f.fsize - offset) < buffer_size := by omega
    dsimp only
    rw [if_pos (by simpa using hm.ne)]

/-- C1 witness: on a 3-byte file holding bytes 10, 11, 12, reading 2 bytes
at offset 1 (offset + size = fsize) succeeds with bytes 11, 12, and reading
2 bytes at offset 2 (offset + size = fsize + 1) fails out_of_range. -/
theorem read_boundary_checked_witness :
    ((file.fopen 3 (fun i => i + 10)).read 2 1).1 = .ok (2, [11, 12]) ∧
    ((file.fopen 3 (fun i => i + 10)).read 2 2).1 = .error (.out_of_range "fread failed") := by
  constructor
  · exact ((read_boundary_checked (file.fopen 3 (fun i => i + 10)) 2 1).1 rfl).trans rfl
  · exact (read_boundary_checked (file.fopen 3 (fun i => i + 10)) 2 2).2 (by decide) (by decide)

set_option maxHeartbeats 2000000 in
/-- C2: round trip of the time-value conversion helpers: for every Unix
time t with t >= 0 whose tick count t * 10^7 does not overflow 64 bits,
filetime_to_time_t (time_t_to_filetime t) = t. -/
theorem filetime_round_trip (t : Int) (h0 : 0 ≤ t) (h1 : t * 10000000 < 2 ^ 64) :
    filetime_to_time_t (time_t_to_filetime t) = t := by
  have hA : time_t_to_filetime t = ((t * 10000000).toNat + jan1970) % 2 ^ 64 := by
    unfold time_t_to_filetime jan1970
    omega
  rw [hA]
  unfold filetime_to_time_t
  rw [toSigned64_small _ (by unfold jan1970; omega)]
  unfold jan1970
  omega

/-- C2 witness: the Unix time 1234567890 (Feb 13 2009) round-trips through
the FILETIME representation. -/
theorem filetime_round_trip_witness :
    filetime_to_time_t (time_t_to_filetime 1234567890) = 1234567890 :=
  filetime_round_trip 1234567890 (by norm_num) (by norm_num)

/-- C3: test_bit pbytes bit reads byte number bit / 8 and within it tests
bit number bit % 8 counted from the most-significant bit; equivalently it
returns the bit of weight 2^(7 - bit % 8) of that byte. Indices spanning a
byte boundary therefore address adjacent bytes (witness: bits 7 and 8 of a
two-byte buffer hit the LSB of byte 0 and the MSB of byte 1). -/
theorem test_bit_msb_first (pbytes : List Nat) (bit : Nat) (h : bit / 8 < pbytes.length) :
    test_bit pbytes bit = (pbytes.get ⟨bit / 8, h⟩).testBit (7 - bit % 8) := by
  unfold test_bit
  have h8 : bit >>> 3 = bit / 8 := by
    rw [Nat.shiftRight_eq_div_pow]
  have h7 : bit &&& 7 = bit % 8 := by
    have h3 := Nat.and_pow_two_sub_one_eq_mod bit 3
    norm_num at h3
    exact h3
  have hs : (0x80 : Nat) >>> (bit % 8) = 2 ^ (7 - bit % 8) := by
    rw [Nat.shiftRight_eq_div_pow]
    have h128 : (0x80 : Nat) = 2 ^ 7 := by norm_num
    rw [h128, Nat.pow_div (by omega) (by norm_num)]
  rw [h8, h7, hs, List.getD_eq_getElem pbytes 0 h, List.get_eq_getElem, and_two_pow_ne_zero]

/-- C3 witness: in the two-byte buffer [0x01, 0x80], bit index 7 (the LSB of
byte 0) and bit index 8 (the MSB of byte 1) are both set, while bit index 6
(weight 2 of byte 0) is clear. -/
theorem test_bit_msb_first_witness :
    test_bit [1, 128] 7 = true ∧ test_bit [1, 128] 8 = true ∧ test_bit [1, 128] 6 = false := by
  refine ⟨?_, ?_, ?_⟩
  · exact (test_bit_msb_first [1, 128] 7 (by norm_num)).trans (by decide)
  · exact (test_bit_msb_first [1, 128] 8 (by norm_num)).trans (by decide)
  · exact (test_bit_msb_first [1, 128] 6 (by norm_num)).trans (by decide)

/-- C4: on a handle produced by the public constructor — which opens the
file with mode "rb", hence read-only — even a write whose range lies fully
inside the file extent fails with out_of_range("fwrite failed"), because
fwrite on a read-only stream transfers 0 bytes and the short-transfer check
fires. This refutes the claimed contract that in-bounds writes succeed and
return the byte count; the code can never satisfy it. -/
theorem write_in_range_fails_on_fopen_handle :
    0 + [(42 : Nat)].length ≤ (file.fopen 10 (fun _ => 0)).fsize ∧
    ((file.fopen 10 (fun _ => 0)).write [42] 0).1 = .error (.out_of_range "fwrite failed") :=
  ⟨by decide, rfl⟩

set_option maxHeartbeats 2000000 in
/-- C5: the tick conversions are exact integer arithmetic: for every 64-bit
filetime at or after the Unix epoch offset, filetime_to_time_t is the
truncated division (ft - jan1970) / 10^7; and for every representable
nonnegative Unix time, time_t_to_filetime is exactly t * 10^7 + jan1970. -/
theorem time_conversion_exact :
    (∀ ft : Nat, jan1970 ≤ ft → ft < 2 ^ 64 →
      filetime_to_time_t ft = ((ft - jan1970) / 10000000 : Nat)) ∧
    (∀ t : Int, 0 ≤ t → t * 10000000 < 2 ^ 63 →
      (time_t_to_filetime t : Int) = t * 10000000 + (jan1970 : Int)) := by
  constructor
  · intro ft h1 h2
    unfold filetime_to_time_t
    rw [toSigned64_small _ (by unfold jan1970 at h1 ⊢; omega)]
    unfold jan1970 at h1 ⊢
    omega
  · intro t h0 h1
    unfold time_t_to_filetime jan1970
    omega

/-- C5 witness: the filetime 12 seconds after the Unix epoch converts to 12,
and the Unix time 1 converts to jan1970 + 10^7 ticks. -/
theorem time_conversion_exact_witness :
    filetime_to_time_t 116444736120000000 = 12 ∧
    time_t_to_filetime 1 = 116444736010000000 := by
  constructor
  · exact (time_conversion_exact.1 116444736120000000 (by norm_num [jan1970]) (by norm_num)).trans
      (by norm_num [jan1970])
  · have h := time_conversion_exact.2 1 (by norm_num) (by norm_num)
    unfold jan1970 at h
    omega

/-- C6: on a host whose long is 32 bits wide, the non-MSVC branch of
file::read does NOT honour 64-bit offsets: a file of 2^32 + 1 bytes holding
7 at offset 0 and 42 at offset 2^32, read at offset 2^32 = 4294967296,
returns the byte stored at offset 0 (7), because fseek receives the offset
narrowed through C long — refuting the claim for such hosts, in conflict
with the stated purpose of the class (util.h:27, working around the 32-bit
file-size limit). -/
theorem read_long_truncates_offset_on_32bit_long :
    (((file.fopen 4294967297 (fun i => if i = 4294967296 then 42 else 7)).read_long
        32 1 4294967296).1 = .ok (1, [7])) ∧
    (file.fopen 4294967297 (fun i => if i = 4294967296 then 42 else 7)).byteAt 4294967296 = 42 ∧
    (file.fopen 4294967297 (fun i => if i = 4294967296 then 42 else 7)).byteAt 0 = 7 :=
  ⟨rfl, rfl, rfl⟩

/-- C7: file::read never changes the byte contents of the underlying file:
whether it succeeds or fails, the stream after the call has the same size
and the same byte-at-offset function (only the stream position moves). -/
theorem read_preserves_file_contents (f : file) (buffer_size offset : Nat) :
    ((f.read buffer_size offset).2.fsize = f.fsize) ∧
    ((f.read buffer_size offset).2.byteAt = f.byteAt) := by
  unfold file.read
  dsimp only
  split
  · exact ⟨rfl, rfl⟩
  · exact ⟨rfl, rfl⟩

/-- C8: both VT_DATE conversion helpers are unimplemented stubs: for every
input they raise not_implemented (both with the message
"vt_date_to_time_t") and never return a value. -/
theorem vt_date_stubs_not_implemented :
    (∀ vt_time : Float, vt_date_to_time_t vt_time =
      .error (.not_implemented "vt_date_to_time_t")) ∧
    (∀ time : Int, time_t_to_vt_date time =
      .error (.not_implemented "vt_date_to_time_t")) :=
  ⟨fun _ => rfl, fun _ => rfl⟩

/-- C9: whenever file::read returns without error, the returned byte count
equals the requested buffer size — a successful read is always full, never
a short count. -/
theorem read_success_returns_buffer_size (f : file) (buffer_size offset : Nat)
    (r : Nat × List Nat) (h : (f.read buffer_size offset).1 = .ok r) :
    r.1 = buffer_size := by
  unfold file.read at h
  dsimp only at h
  split at h
  · exact absurd h (by simp)
  · rename_i hc
    rw [not_ne_iff] at hc
    injection h with h2
    rw [← h2]
    exact hc

/-- C9 witness: reading 2 bytes at offset 1 of a 3-byte file returns the
pair (2, [11, 12]), whose count component is the requested size 2. -/
theorem read_success_returns_buffer_size_witness : ((2 : Nat), ([11, 12] : List Nat)).1 = 2 :=
  read_success_returns_buffer_size (file.fopen 3 (fun i => i + 10)) 2 1 (2, [11, 12]) rfl

set_option maxHeartbeats 2000000 in
/-- C10: for a filetime strictly before the Unix epoch offset, the
subtraction in filetime_to_time_t wraps around in unsigned 64-bit
arithmetic: the result is ((ft - jan1970) mod 2^64) / 10^7 — a large
positive count, never a negative number of seconds. -/
theorem filetime_before_epoch_wraps_unsigned (ft : Nat) (h : ft < jan1970) :
    filetime_to_time_t ft = (((ft + 2 ^ 64) - jan1970) % 2 ^ 64 / 10000000 : Nat) ∧
    0 < filetime_to_time_t ft := by
  unfold filetime_to_time_t
  rw [toSigned64_small _ (by unfold jan1970 at h ⊢; omega)]
  unfold jan1970 at h ⊢
  constructor
  · omega
  · omega

/-- C10 witness: filetime 0 (Jan 1st 1601) converts to the wrapped positive
value 1833029933770, not to the negative second count -11644473600. -/
theorem filetime_before_epoch_wraps_unsigned_witness :
    filetime_to_time_t 0 = 1833029933770 ∧ 0 < filetime_to_time_t 0 := by
  have h := filetime_before_epoch_wraps_unsigned 0 (by norm_num [jan1970])
  refine ⟨h.1.trans ?_, h.2⟩
  unfold jan1970
  omega

end fairport
